import Mathlib

/-
Verification of the LLMSession browser-automation library.
Strings are modelled as lists of characters; the JavaScript string
operations used by the source (includes, first-occurrence replace) are
embedded below.  Effectful flows (login, init, sendPrompt, close) are
embedded as functions from an environment describing the browser/UI
responses to a result together with the list of driver actions performed.
-/

namespace LLMSession

abbrev Str := List Char

/-- JS String startsWith on character lists. -/
def startsWithL : Str → Str → Bool
  | _, [] => true
  | [], _ :: _ => false
  | c :: cs, p :: ps => c == p && startsWithL cs ps

/-- JS String includes: the pattern occurs as a contiguous substring. -/
def includesL : Str → Str → Bool
  | [], pat => pat.isEmpty
  | c :: cs, pat => startsWithL (c :: cs) pat || includesL cs pat

/-- JS String replace with a string pattern: replaces only the first
occurrence of the pattern, returns the string unchanged if absent. -/
def replaceFirstL : Str → Str → Str → Str
  | [], pat, rep => if pat.isEmpty then rep else []
  | c :: cs, pat, rep =>
    if startsWithL (c :: cs) pat then rep ++ (c :: cs).drop pat.length
    else c :: replaceFirstL cs pat rep

def lbrace : Char := Char.ofNat 123

def rbrace : Char := Char.ofNat 125

/-- The template token consisting of an opening and a closing curly brace. -/
def tok1 : Str := [lbrace, rbrace]

/-- The fallback template token: two opening then two closing curly braces. -/
def tok2 : Str := [lbrace, lbrace, rbrace, rbrace]

/-- A prompt-chain element: a literal string or a function of the
previous response (Automator.processChain, part_000 lines 89-106). -/
inductive ChainItem where
  | str (s : Str)
  | fn (f : Str → Str)

/-- The prompt-resolution logic of Automator.processChain (lines 97-106):
function items get the previous response directly; string items have the
first occurrence of the brace token replaced, else of the double-brace
token, else are used verbatim. -/
def resolvePrompt : ChainItem → Str → Str
  | ChainItem.fn f, last => f last
  | ChainItem.str s, last =>
    if includesL s tok1 then replaceFirstL s tok1 last
    else if includesL s tok2 then replaceFirstL s tok2 last
    else s

/-- Errors thrown by the library, one constructor per throw site. -/
inductive Err where
  | launchError
  | unknownProvider (name : String)
  | configError
  | browserNotStarted
  | navError
  | loginUIError
  | credsRequired
  | uiStepError
  | otpUnavailable
  | loginTimeout
  | promptSubmissionError
  | responseTimeout
  | noResponse
deriving DecidableEq

/-- Driver actions performed against the browser-automation capability. -/
inductive Event where
  | ensureDir
  | launchContext
  | addCookies
  | newPage
  | usePage
  | grantPermissions
  | navigate
  | waitSel (sel : String)
  | click (sel : String)
  | fill (sel : String)
  | pause
  | tick
  | finalWait
  | screenshot
  | saveSession
deriving DecidableEq

/-- Events that belong to the login or prompt-interaction flows, as
opposed to launch, navigation and bounded marker waits. -/
def Event.isInteraction : Event → Bool
  | Event.click _ => true
  | Event.fill _ => true
  | Event.screenshot => true
  | Event.tick => true
  | Event.pause => true
  | Event.finalWait => true
  | _ => false

/-- Automator.processChain (part_000 lines 89-115): resolves each item
against the previous response (empty for the first), submits it, and
accumulates the responses in order; a failed submission propagates. -/
def Automator.processChain (send : Str → Except Err Str) :
    List ChainItem → Str → Except Err (List Str)
  | [], _ => Except.ok []
  | item :: rest, last =>
    match send (resolvePrompt item last) with
    | Except.error e => Except.error e
    | Except.ok r =>
      match Automator.processChain send rest r with
      | Except.error e => Except.error e
      | Except.ok rs => Except.ok (r :: rs)

/-- JS truthiness of an optional string: present and non-empty. -/
def truthy : Option Str → Bool
  | some s => !s.isEmpty
  | none => false

/-- JS short-circuit or on optional strings: the left value unless it is
absent or empty (falsy), in which case the right value. -/
def orFalsy (a b : Option Str) : Option Str :=
  match a with
  | some s => if s.isEmpty then b else some s
  | none => b

/-- The credentials record handed to ChatGPTProvider.login. -/
structure LoginCreds where
  email : Option Str
  password : Option Str
  method : Str

/-- Environment describing how the browser UI answers the driver calls
made by ChatGPTProvider.login (ChatGPT.ts lines 47-144). -/
structure LoginEnv where
  gotoOk : Bool
  upsellVisible : Bool
  tempChatVisible : Bool
  alreadyLoggedIn : Bool
  landingClickOk : Bool
  googleStepsOk : Bool
  emailStepsOk : Bool
  profileVisible : Nat → Bool
  otpVisible : Nat → Bool
  otpWaitOk : Bool
  finalWaitOk : Bool

/-- ChatGPTProvider.handleDialogs (ChatGPT.ts lines 146-160): clicks the
upsell and temporary-chat dismissals when visible; absence is ignored. -/
def ChatGPTProvider.handleDialogs (upsell tempChat : Bool) : List Event :=
  (if upsell then [Event.click "upsell_maybe_later", Event.pause] else [])
    ++ (if tempChat then [Event.click "temp_chat_continue", Event.pause] else [])

/-- The credential-entry stage of login (ChatGPT.ts lines 75-105): the
google branch drives the federated fields, any other method drives the
email then password fields; a failing driver step aborts the stage. -/
def ChatGPTProvider.credEntry (e : LoginEnv) (method : Str) :
    Except Err Unit × List Event :=
  if method == "google".data then
    if e.googleStepsOk then
      (Except.ok (), [Event.click "login_google_btn", Event.fill "google_email",
        Event.click "identifierNext", Event.fill "google_password", Event.click "passwordNext"])
    else (Except.error Err.uiStepError, [])
  else
    if e.emailStepsOk then
      (Except.ok (), [Event.fill "email_input", Event.click "email_continue_btn",
        Event.fill "password_input", Event.click "password_continue_btn"])
    else (Except.error Err.uiStepError, [])

/-- The result-polling loop of login (ChatGPT.ts lines 110-138), indexed
by the current iteration and the remaining fuel (30 at the start), plus
the final 30-second wait for the profile marker after the loop (line
136).  Each iteration checks the profile marker, then the OTP field: a
visible OTP field without a configured supplier is a fatal error, with a
supplier the code is filled, submitted and the marker awaited; otherwise
the loop sleeps one second and continues. -/
def ChatGPTProvider.awaitLoop (e : LoginEnv) (supplier : Option Str) :
    Nat → Nat → Except Err Bool × List Event
  | _, 0 =>
    if e.finalWaitOk then (Except.ok true, [Event.finalWait])
    else (Except.error Err.loginTimeout, [Event.finalWait])
  | i, fuel + 1 =>
    if e.profileVisible i then (Except.ok true, [])
    else if e.otpVisible i then
      match supplier with
      | none => (Except.error Err.otpUnavailable, [])
      | some _ =>
        if e.otpWaitOk then
          (Except.ok true,
            [Event.fill "otp_input", Event.click "otp_validate", Event.waitSel "profile_btn"])
        else
          (Except.error Err.loginTimeout,
            [Event.fill "otp_input", Event.click "otp_validate", Event.waitSel "profile_btn"])
    else
      let r := ChatGPTProvider.awaitLoop e supplier (i + 1) fuel
      (r.1, Event.tick :: r.2)

/-- The body of the try block of login (ChatGPT.ts lines 74-138):
credential entry followed by the result-polling loop. -/
def ChatGPTProvider.loginTry (e : LoginEnv) (c : LoginCreds) (supplier : Option Str) :
    Except Err Bool × List Event :=
  let entry := ChatGPTProvider.credEntry e c.method
  match entry.1 with
  | Except.error err => (Except.error err, entry.2)
  | Except.ok _ =>
    let lp := ChatGPTProvider.awaitLoop e supplier 0 30
    (lp.1, entry.2 ++ lp.2)

/-- ChatGPTProvider.login (ChatGPT.ts lines 47-144): navigate to the
root, dismiss dialogs, return early when already logged in, click the
landing login affordance (failure is fatal and not screenshotted),
require both credentials (failure is not screenshotted), then run
credential entry and result polling inside the try block whose catch
takes a screenshot before rethrowing. -/
def ChatGPTProvider.login (e : LoginEnv) (c : LoginCreds) (supplier : Option Str) :
    Except Err Bool × List Event :=
  if !e.gotoOk then (Except.error Err.navError, [Event.navigate])
  else
    let pre := Event.navigate ::
      (ChatGPTProvider.handleDialogs e.upsellVisible e.tempChatVisible
        ++ [Event.waitSel "profile_btn"])
    if e.alreadyLoggedIn then (Except.ok true, pre)
    else if !e.landingClickOk then (Except.error Err.loginUIError, pre)
    else
      let pre2 := pre ++ [Event.click "landing_login_btn"]
      if !(truthy c.email && truthy c.password) then (Except.error Err.credsRequired, pre2)
      else
        let tb := ChatGPTProvider.loginTry e c supplier
        match tb.1 with
        | Except.ok b => (Except.ok b, pre2 ++ tb.2)
        | Except.error err => (Except.error err, pre2 ++ tb.2 ++ [Event.screenshot])

/-- BrowserManager.isAuthenticated (part_000 lines 222-237): throws when
no page was started, otherwise navigates to the url and reports whether
the marker appears within the bounded wait; a navigation failure yields
false. -/
def BrowserManager.isAuthenticated (pageStarted navOk markerVisible : Bool) :
    Except Err Bool × List Event :=
  if !pageStarted then (Except.error Err.browserNotStarted, [])
  else if !navOk then (Except.ok false, [Event.navigate])
  else if markerVisible then (Except.ok true, [Event.navigate, Event.waitSel "profile_btn"])
  else (Except.ok false, [Event.navigate, Event.waitSel "profile_btn"])

/-- Environment describing the driver answers for BrowserManager.start. -/
structure StartEnv where
  launchOk : Bool
  sessionFileExists : Bool
  sessionReadOk : Bool
  sessionHasCookies : Bool
  hasExistingPages : Bool

/-- BrowserManager.start (part_000 lines 156-205): ensures the profile
directory, launches the persistent context (failure is a fatal launch
error), best-effort imports cookies from the optional session file
(failures are swallowed), and returns the first existing page or a fresh
one. -/
def BrowserManager.start (sessionPath : Option Str) (e : StartEnv) :
    Except Err Unit × List Event :=
  if !e.launchOk then (Except.error Err.launchError, [Event.ensureDir])
  else
    let cookieEvs :=
      match sessionPath with
      | some _ =>
        if e.sessionFileExists && e.sessionReadOk && e.sessionHasCookies then
          [Event.addCookies]
        else []
      | none => []
    let pageEvs := if e.hasExistingPages then [Event.usePage] else [Event.newPage]
    (Except.ok (), Event.ensureDir :: Event.launchContext :: (cookieEvs ++ pageEvs))

/-- Environment and configuration for one run of Automator.init. -/
structure InitEnv where
  providerName : String
  credEmail : Option Str
  credPassword : Option Str
  credMethod : Option Str
  envEmail : Option Str
  envPassword : Option Str
  sessionPath : Option Str
  startEnv : StartEnv
  navOk : Bool
  markerVisible : Bool
  loginEnv : LoginEnv
  otpSupplier : Option Str

/-- Automator.init (part_000 lines 44-82): starts the browser manager,
grants clipboard permissions, rejects provider names other than chatgpt,
runs the authentication check, and when it reports false resolves
credentials (explicit over environment, empty strings falsy), throws the
configuration error when either is missing, otherwise logs in and saves
the session when a path was configured. -/
def Automator.init (e : InitEnv) : Except Err Unit × List Event :=
  let s := BrowserManager.start e.sessionPath e.startEnv
  match s.1 with
  | Except.error err => (Except.error err, s.2)
  | Except.ok _ =>
    let ev1 := s.2 ++ [Event.grantPermissions]
    if e.providerName == "chatgpt" then
      let a := BrowserManager.isAuthenticated true e.navOk e.markerVisible
      match a.1 with
      | Except.error err => (Except.error err, ev1 ++ a.2)
      | Except.ok true => (Except.ok (), ev1 ++ a.2)
      | Except.ok false =>
        let em := orFalsy e.credEmail e.envEmail
        let pw := orFalsy e.credPassword e.envPassword
        let method :=
          match e.credMethod with
          | some m => if m.isEmpty then "email".data else m
          | none => "email".data
        if !(truthy em && truthy pw) then (Except.error Err.configError, ev1 ++ a.2)
        else
          let lg := ChatGPTProvider.login e.loginEnv ⟨em, pw, method⟩ e.otpSupplier
          match lg.1 with
          | Except.error err => (Except.error err, ev1 ++ a.2 ++ lg.2)
          | Except.ok _ =>
            match e.sessionPath with
            | some _ => (Except.ok (), ev1 ++ a.2 ++ lg.2 ++ [Event.saveSession])
            | none => (Except.ok (), ev1 ++ a.2 ++ lg.2)
    else (Except.error (Err.unknownProvider e.providerName), ev1)

/-- Resource state of an Automator: whether the browser manager was ever
constructed, and whether its context and browser handles exist and are
open.  The handles are never nulled out by stop, matching the source. -/
structure AState where
  bmExists : Bool
  ctxExists : Bool
  ctxOpen : Bool
  brExists : Bool
  brOpen : Bool
deriving DecidableEq, Fintype

/-- BrowserManager.stop (part_000 lines 213-220): closes the context
handle when present and the browser handle when present.  Per the
capability interface of the driver, closing an already-closed context or
browser resolves without error, so stop is a pure state transform. -/
def BrowserManager.stopState (s : AState) : AState :=
  let s1 := if s.ctxExists then { s with ctxOpen := false } else s
  if s1.brExists then { s1 with brOpen := false } else s1

/-- Automator.close (part_000 lines 117-121): stops the browser manager
when it was constructed; none of its operations can fail, matching the
absence of any throw site on this path. -/
def Automator.close (a : AState) : Except Err AState :=
  if a.bmExists then Except.ok (BrowserManager.stopState a) else Except.ok a

/-- Environment describing the driver answers for one run of
ChatGPTProvider.sendPrompt (ChatGPT.ts lines 162-212). -/
structure SendEnv where
  upsellVisible : Bool
  tempChatVisible : Bool
  textareaOk : Bool
  sendBtnWaitOk : Bool
  sendBtnDisabled : Bool
  clickOk : Bool
  stopAppears : Bool
  stopDisappears : Bool
  sendVisibleAfter : Bool
  assistantWaitOk : Bool
  msgCount : Nat
  hasMarkdown : Bool
  markdownText : Str
  fullText : Str

/-- ChatGPTProvider.sendPrompt (ChatGPT.ts lines 162-212): dismiss
dialogs, fill the input and click send (failures become submission
errors, with a short grace pause when the send control reports
disabled), then completion detection: wait for the stop indicator to
appear and then disappear; when that times out, the run is treated as
complete only if the send control is visible again, otherwise the
response timeout is fatal.  Finally wait for an assistant message and
return the markdown body text when present, else the whole text. -/
def ChatGPTProvider.sendPrompt (e : SendEnv) : Except Err Str × List Event :=
  let dv := ChatGPTProvider.handleDialogs e.upsellVisible e.tempChatVisible
  if !e.textareaOk then
    (Except.error Err.promptSubmissionError, dv ++ [Event.waitSel "textarea"])
  else
    let ev1 := dv ++ [Event.waitSel "textarea", Event.fill "textarea"]
    if !e.sendBtnWaitOk then
      (Except.error Err.promptSubmissionError, ev1 ++ [Event.waitSel "send_btn"])
    else
      let ev2 := ev1 ++ [Event.waitSel "send_btn"]
        ++ (if e.sendBtnDisabled then [Event.pause] else [])
      if !e.clickOk then (Except.error Err.promptSubmissionError, ev2)
      else
        let ev3 := ev2 ++ [Event.click "send_btn"]
        let comp : Except Err Unit :=
          if e.stopAppears then
            if e.stopDisappears then Except.ok ()
            else if e.sendVisibleAfter then Except.ok ()
            else Except.error Err.responseTimeout
          else if e.sendVisibleAfter then Except.ok ()
          else Except.error Err.responseTimeout
        match comp with
        | Except.error err => (Except.error err, ev3)
        | Except.ok _ =>
          let ev4 := ev3 ++ [Event.waitSel "assistant_msg"]
          if !e.assistantWaitOk then (Except.error Err.noResponse, ev4)
          else if e.msgCount == 0 then (Except.error Err.noResponse, ev4)
          else if e.hasMarkdown then (Except.ok e.markdownText, ev4)
          else (Except.ok e.fullText, ev4)

/-- An echoing submitter used to exercise the chain on concrete data. -/
def sendC6 : Str → Except Err Str := fun s => Except.ok s

/-- A concrete two-element chain: a literal and a function item. -/
def itemsC6 : List ChainItem := [ChainItem.str "a".data, ChainItem.fn (fun p => p ++ "b".data)]

/-- The responses produced by the concrete chain above. -/
def outC6 : List Str := ["a".data, "ab".data]

/-- A start environment where the driver launches successfully. -/
def startEnvOk : StartEnv := ⟨true, false, false, false, false⟩

/-- A login environment in which every step would succeed. -/
def loginEnvDummy : LoginEnv :=
  ⟨true, false, false, false, true, true, true, fun _ => false, fun _ => false, true, true⟩

/-- An init run with no credentials anywhere and a session that the
authentication check reports as not authenticated. -/
def envC2 : InitEnv :=
  ⟨"chatgpt", none, none, none, none, none, none, startEnvOk, true, false, loginEnvDummy, none⟩

/-- An init run configured with an unknown provider name. -/
def envC4 : InitEnv :=
  ⟨"gemini", none, none, none, none, none, none, startEnvOk, true, false, loginEnvDummy, none⟩

/-- Concrete non-empty credentials using the email method. -/
def credsOk : LoginCreds := ⟨some "a".data, some "b".data, "email".data⟩

/-- A login run where the landing login affordance cannot be found. -/
def loginEnvNoLanding : LoginEnv :=
  ⟨true, false, false, false, false, true, true, fun _ => false, fun _ => false, true, true⟩

/-- A login run that fails during the credential-entry stage. -/
def loginEnvLateFail : LoginEnv :=
  ⟨true, false, false, false, true, true, false, fun _ => false, fun _ => false, true, true⟩

/-- A sendPrompt run where the stop indicator never appears but the send
control is visible again and one assistant message exists. -/
def sendEnvC5 : SendEnv :=
  ⟨false, false, true, true, false, true, false, false, true, true, 1, true,
    "ok ".data, "full".data⟩

/-- A login run where the OTP field becomes visible at iteration two of
the polling loop and no supplier is configured. -/
def loginEnvC7 : LoginEnv :=
  ⟨true, false, false, false, true, true, true, fun _ => false, fun j => j == 2, true, true⟩

/-- Any string containing the double-brace token also contains the
single-brace token starting one character later, so the fallback branch
of the template substitution is unreachable: first a helper about the
shape of such a string. -/
theorem startsWithL_sub_tok1 (x y : Char) (ys : Str)
    (hx : x = lbrace) (hy : y = rbrace) :
    includesL (x :: y :: ys) tok1 = true := by
  subst hx
  subst hy
  simp [includesL, startsWithL, tok1]

/-- Unreachability of the fallback template branch: a string that
includes the double-brace token always includes the brace token. -/
theorem includes_tok2_implies_tok1 (s : Str) (h : includesL s tok2 = true) :
    includesL s tok1 = true := by
  induction s with
  | nil => simp [includesL, tok2] at h
  | cons c cs ih =>
    rw [includesL] at h
    rcases Bool.or_eq_true_iff.mp h with h1 | h2
    · rcases cs with _ | ⟨x, xs⟩
      · simp [startsWithL, tok2] at h1
      rcases xs with _ | ⟨y, ys⟩
      · simp [startsWithL, tok2] at h1
      simp only [tok2, startsWithL, Bool.and_eq_true, beq_iff_eq] at h1
      obtain ⟨hc, hx, hy, _⟩ := h1
      rw [includesL]
      have hin : includesL (x :: y :: ys) tok1 = true := startsWithL_sub_tok1 x y ys hx hy
      simp [hin]
    · rw [includesL]
      simp [ih h2]

/-- Element-wise description of a successful chain run: one response per
item, each produced by submitting the item resolved against the
immediately preceding response. -/
theorem processChain_elements (send : Str → Except Err Str) :
    ∀ (items : List ChainItem) (last : Str) (out : List Str),
      Automator.processChain send items last = Except.ok out →
      out.length = items.length ∧
      ∀ i, i < items.length →
        send (resolvePrompt (items.getD i (ChainItem.str []))
            (if i = 0 then last else out.getD (i - 1) [])) = Except.ok (out.getD i []) := by
  intro items
  induction items with
  | nil =>
    intro last out h
    simp [Automator.processChain] at h
    subst h
    refine ⟨rfl, ?_⟩
    intro i hi
    exact absurd hi (by simp)
  | cons item rest ih =>
    intro last out h
    rw [Automator.processChain] at h
    rcases hsend : send (resolvePrompt item last) with err | r
    · rw [hsend] at h
      cases h
    rw [hsend] at h
    dsimp only at h
    rcases hrec : Automator.processChain send rest r with err2 | rs
    · rw [hrec] at h
      cases h
    rw [hrec] at h
    dsimp only at h
    have hout : out = r :: rs := by
      cases h
      rfl
    subst hout
    obtain ⟨hlen, helem⟩ := ih r rs hrec
    refine ⟨by simp [hlen], ?_⟩
    intro i hi
    cases i with
    | zero =>
      simpa using hsend
    | succ j =>
      have hj : j < rest.length := by
        simpa using hi
      have hprev : ((r :: rs).getD j []) = if j = 0 then r else rs.getD (j - 1) [] := by
        cases j with
        | zero => rfl
        | succ k => simp
      have hstep := helem j hj
      rw [← hprev] at hstep
      simpa using hstep

/-- Stopping releases the context handle whenever one exists. -/
theorem stopState_ctxOpen :
    ∀ s : AState, s.ctxExists = true → (BrowserManager.stopState s).ctxOpen = false := by
  decide

/-- Stopping an already-stopped browser manager changes nothing. -/
theorem stopState_idem :
    ∀ s : AState,
      BrowserManager.stopState (BrowserManager.stopState s) = BrowserManager.stopState s := by
  decide

/-- Stopping does not change whether the browser manager exists. -/
theorem stopState_bmExists :
    ∀ s : AState, (BrowserManager.stopState s).bmExists = s.bmExists := by decide

/-- The result-polling loop never reports an unauthenticated success:
every successful exit returns true. -/
theorem awaitLoop_ne_ok_false (e : LoginEnv) (supplier : Option Str) :
    ∀ (fuel i : Nat), (ChatGPTProvider.awaitLoop e supplier i fuel).1 ≠ Except.ok false := by
  intro fuel
  induction fuel with
  | zero =>
    intro i h
    rw [ChatGPTProvider.awaitLoop.eq_def] at h
    by_cases hf : e.finalWaitOk <;> simp [hf] at h
  | succ f ih =>
    intro i h
    rw [ChatGPTProvider.awaitLoop.eq_def] at h
    by_cases hp : e.profileVisible i
    · simp [hp] at h
    · by_cases ho : e.otpVisible i
      · rcases supplier with _ | code
        · simp [hp, ho] at h
        · by_cases hw : e.otpWaitOk <;> simp [hp, ho, hw] at h
      · simp [hp, ho] at h
        exact ih (i + 1) h

/-- The try block of login never returns false either. -/
theorem loginTry_ne_ok_false (e : LoginEnv) (c : LoginCreds) (supplier : Option Str) :
    (ChatGPTProvider.loginTry e c supplier).1 ≠ Except.ok false := by
  intro h
  rw [ChatGPTProvider.loginTry] at h
  rcases he : (ChatGPTProvider.credEntry e c.method).1 with err | u
  · rw [he] at h
    simp at h
  · rw [he] at h
    simp at h
    exact awaitLoop_ne_ok_false e supplier 30 0 h

/-- When the first n iterations of the polling loop see neither marker
and iteration n sees the OTP field with no supplier configured, the loop
stops right there with the OTP error after exactly n one-second sleeps. -/
theorem awaitLoop_first_otp (e : LoginEnv) :
    ∀ (n i fuel : Nat), n < fuel →
      (∀ j, j < n → e.profileVisible (i + j) = false ∧ e.otpVisible (i + j) = false) →
      e.profileVisible (i + n) = false → e.otpVisible (i + n) = true →
      ChatGPTProvider.awaitLoop e none i fuel =
        (Except.error Err.otpUnavailable, List.replicate n Event.tick) := by
  intro n
  induction n with
  | zero =>
    intro i fuel hf _ hp ho
    rcases fuel with _ | f
    · omega
    rw [Nat.add_zero] at hp ho
    rw [ChatGPTProvider.awaitLoop.eq_def]
    simp [hp, ho]
  | succ n ih =>
    intro i fuel hf hbefore hp ho
    rcases fuel with _ | f
    · omega
    have h0 := hbefore 0 (by omega)
    rw [Nat.add_zero] at h0
    have hrec := ih (i + 1) f (by omega)
      (fun j hj => by
        have hshift := hbefore (j + 1) (by omega)
        rwa [show i + (j + 1) = i + 1 + j by omega] at hshift)
      (by rwa [show i + 1 + n = i + (n + 1) by omega])
      (by rwa [show i + 1 + n = i + (n + 1) by omega])
    rw [ChatGPTProvider.awaitLoop.eq_def]
    simp [h0.1, h0.2, hrec, List.replicate_succ]

/-- A successful start performs only launch and bookkeeping actions: no
interaction events and no navigation, no polling sleeps. -/
theorem start_trace_clean (sp : Option Str) (e : StartEnv) (h : e.launchOk = true) :
    (∀ ev ∈ (BrowserManager.start sp e).2, ev.isInteraction = false) ∧
    (BrowserManager.start sp e).2.count Event.navigate = 0 ∧
    (BrowserManager.start sp e).2.count Event.tick = 0 ∧
    (BrowserManager.start sp e).2.count Event.finalWait = 0 := by
  rcases sp with _ | p <;>
    by_cases h1 : e.sessionFileExists <;> by_cases h2 : e.sessionReadOk <;>
      by_cases h3 : e.sessionHasCookies <;> by_cases h4 : e.hasExistingPages <;>
        simp [BrowserManager.start, h, h1, h2, h3, h4, Event.isInteraction, List.count_cons]

/-- Claim C1: the spec expects the chain element consisting of the
double-brace token followed by " is tasty", with previous response
"mango", to render as "mango is tasty".  Evaluating the code on exactly
that input shows the divergence: because the double-brace token contains
the brace token, the first substitution branch fires and the rendered
prompt is "(lbrace)mango(rbrace) is tasty", not "mango is tasty". -/
theorem c1_template_fallback_eval :
    Automator.processChain (fun s => Except.ok s)
        [ChainItem.str "mango".data, ChainItem.str (tok2 ++ " is tasty".data)] []
      = Except.ok ["mango".data, lbrace :: ("mango".data ++ (rbrace :: " is tasty".data))]
    ∧ lbrace :: ("mango".data ++ (rbrace :: " is tasty".data)) ≠ "mango is tasty".data :=
  ⟨by rfl, by decide⟩

/-- Claim C2, counterexample: with no credentials anywhere and a
not-authenticated session, init does fail with the configuration error,
but a page navigation (the authentication check) has already occurred,
contradicting "before any page navigation occurs". -/
theorem c2_counterexample :
    (Automator.init envC2).1 = Except.error Err.configError ∧
    Event.navigate ∈ (Automator.init envC2).2 :=
  ⟨rfl, by decide⟩

/-- Claim C2, amended: when the browser starts, the provider is chatgpt,
the authentication check reports not authenticated, and neither explicit
credentials nor the environment supply both email and password, init
fails with the configuration error after exactly one navigation (the
authentication check) and before any login-flow interaction. -/
theorem c2_amended (e : InitEnv)
    (hl : e.startEnv.launchOk = true)
    (hp : e.providerName = "chatgpt")
    (hauth : e.navOk = false ∨ e.markerVisible = false)
    (hcred : truthy (orFalsy e.credEmail e.envEmail) = false
      ∨ truthy (orFalsy e.credPassword e.envPassword) = false) :
    (Automator.init e).1 = Except.error Err.configError ∧
    ((Automator.init e).2.all fun ev => !ev.isInteraction) = true ∧
    (Automator.init e).2.count Event.navigate = 1 := by
  obtain ⟨hall, hnav, _, _⟩ := start_trace_clean e.sessionPath e.startEnv hl
  have hok : (BrowserManager.start e.sessionPath e.startEnv).1 = Except.ok () := by
    simp [BrowserManager.start, hl]
  have hcredF : (truthy (orFalsy e.credEmail e.envEmail)
      && truthy (orFalsy e.credPassword e.envPassword)) = false := by
    rcases hcred with h | h <;> simp [h]
  rw [Automator.init, hok]
  by_cases hn : e.navOk
  · have hm : e.markerVisible = false := by
      rcases hauth with h | h
      · rw [hn] at h
        cases h
      · exact h
    simp [hp, BrowserManager.isAuthenticated, hn, hm, hcredF, hnav,
      Event.isInteraction, List.count_append, List.count_cons]
    intro x hx
    exact hall x hx
  · simp only [Bool.not_eq_true] at hn
    simp [hp, BrowserManager.isAuthenticated, hn, hcredF, hnav,
      Event.isInteraction, List.count_append, List.count_cons]
    intro x hx
    exact hall x hx

/-- Claim C2, witness for the amended statement at the concrete
no-credentials environment. -/
theorem c2_amended_witness :
    (Automator.init envC2).1 = Except.error Err.configError ∧
    ((Automator.init envC2).2.all fun ev => !ev.isInteraction) = true ∧
    (Automator.init envC2).2.count Event.navigate = 1 :=
  c2_amended envC2 rfl rfl (Or.inr rfl) (Or.inl rfl)

/-- Claim C3, counterexample: when the landing login affordance cannot
be located, the fatal login failure propagates with no screenshot in the
trace, contradicting "a diagnostic screenshot is captured before the
error propagates" for that failure. -/
theorem c3_counterexample :
    (ChatGPTProvider.login loginEnvNoLanding credsOk none).1 = Except.error Err.loginUIError ∧
    (ChatGPTProvider.login loginEnvNoLanding credsOk none).2.contains Event.screenshot = false :=
  ⟨rfl, by decide⟩

/-- Claim C3, amended: a screenshot is captured before propagation for
every fatal failure from the credential-entry stage onward (the body of
the try block: entry steps, result polling, OTP handling and the final
wait); failures locating the landing affordance and missing credentials
are thrown before the try block and are not screenshotted. -/
theorem c3_amended (e : LoginEnv) (c : LoginCreds) (supplier : Option Str) (err : Err)
    (hgoto : e.gotoOk = true) (halready : e.alreadyLoggedIn = false)
    (hland : e.landingClickOk = true)
    (hem : truthy c.email = true) (hpw : truthy c.password = true)
    (hfail : (ChatGPTProvider.login e c supplier).1 = Except.error err) :
    Event.screenshot ∈ (ChatGPTProvider.login e c supplier).2 := by
  rw [ChatGPTProvider.login] at hfail ⊢
  rcases htb : (ChatGPTProvider.loginTry e c supplier).1 with e2 | b
  · simp [hgoto, halready, hland, hem, hpw, htb]
  · simp [hgoto, halready, hland, hem, hpw, htb] at hfail

/-- Claim C3, witness for the amended statement: a credential-entry
failure ends with a screenshot in the trace. -/
theorem c3_amended_witness :
    Event.screenshot ∈ (ChatGPTProvider.login loginEnvLateFail credsOk none).2 :=
  c3_amended loginEnvLateFail credsOk none Err.uiStepError rfl rfl rfl (by decide) (by decide) rfl

/-- Claim C4, counterexample: an unknown provider name does fail with
the unknown-provider error, but only after the browser context and a
page have been created by start, contradicting "no component of the
session (browser context, page) is created or started before the
failure". -/
theorem c4_counterexample :
    (Automator.init envC4).1 = Except.error (Err.unknownProvider "gemini") ∧
    Event.launchContext ∈ (Automator.init envC4).2 ∧
    Event.newPage ∈ (Automator.init envC4).2 :=
  ⟨rfl, by decide, by decide⟩

/-- Claim C4, amended: with an unknown provider name and a successful
browser launch, init fails with the unknown-provider error before any
navigation or any login-flow interaction, though after the browser
context and page were created. -/
theorem c4_amended (e : InitEnv)
    (hl : e.startEnv.launchOk = true)
    (hp : (e.providerName == "chatgpt") = false) :
    (Automator.init e).1 = Except.error (Err.unknownProvider e.providerName) ∧
    (Automator.init e).2.count Event.navigate = 0 ∧
    ((Automator.init e).2.all fun ev => !ev.isInteraction) = true := by
  obtain ⟨hall, hnav, _, _⟩ := start_trace_clean e.sessionPath e.startEnv hl
  have hok : (BrowserManager.start e.sessionPath e.startEnv).1 = Except.ok () := by
    simp [BrowserManager.start, hl]
  rw [Automator.init, hok]
  simp [hp, hnav, List.count_append, List.count_cons]
  exact ⟨fun x hx => hall x hx, rfl⟩

/-- Claim C4, witness for the amended statement at the concrete
unknown-provider environment. -/
theorem c4_amended_witness :
    (Automator.init envC4).1 = Except.error (Err.unknownProvider envC4.providerName) ∧
    (Automator.init envC4).2.count Event.navigate = 0 ∧
    ((Automator.init envC4).2.all fun ev => !ev.isInteraction) = true :=
  c4_amended envC4 rfl (by decide)

/-- Claim C5: when submission succeeds, the stop indicator never appears
within its bounded wait, and an assistant message is available, the call
succeeds exactly when the send control is visible again at that moment,
and otherwise fails with the response-timeout error. -/
theorem c5_completion_detection (e : SendEnv)
    (h1 : e.textareaOk = true) (h2 : e.sendBtnWaitOk = true) (h3 : e.clickOk = true)
    (h4 : e.stopAppears = false) (h5 : e.assistantWaitOk = true) (h6 : e.msgCount ≠ 0) :
    (((ChatGPTProvider.sendPrompt e).1).isOk = true ↔ e.sendVisibleAfter = true) ∧
    ((ChatGPTProvider.sendPrompt e).1 = Except.error Err.responseTimeout
      ↔ e.sendVisibleAfter = false) := by
  rw [ChatGPTProvider.sendPrompt]
  by_cases hv : e.sendVisibleAfter <;>
    by_cases hd : e.sendBtnDisabled <;>
      by_cases hm : e.hasMarkdown <;>
        simp [h1, h2, h3, h4, h5, h6, hv, hd, hm, Except.isOk, Except.toBool]

/-- Claim C5, witness at a concrete environment where the send control
is visible again after the indicator timeout. -/
theorem c5_witness :
    (((ChatGPTProvider.sendPrompt sendEnvC5).1).isOk = true
      ↔ sendEnvC5.sendVisibleAfter = true) ∧
    ((ChatGPTProvider.sendPrompt sendEnvC5).1 = Except.error Err.responseTimeout
      ↔ sendEnvC5.sendVisibleAfter = false) :=
  c5_completion_detection sendEnvC5 rfl rfl rfl rfl rfl (by decide)

/-- Claim C6: a successful chain run yields one response per item in
order, the prompt submitted for each item resolves it against the
immediately preceding response (the empty string for the first item),
and function items receive the raw previous response with no template
substitution applied to anything. -/
theorem c6_chain_order (send : Str → Except Err Str) (items : List ChainItem)
    (out : List Str) (h : Automator.processChain send items [] = Except.ok out) :
    out.length = items.length ∧
    (∀ i, i < items.length →
      send (resolvePrompt (items.getD i (ChainItem.str []))
          (if i = 0 then [] else out.getD (i - 1) [])) = Except.ok (out.getD i [])) ∧
    (∀ f prev, resolvePrompt (ChainItem.fn f) prev = f prev) := by
  obtain ⟨h1, h2⟩ := processChain_elements send items [] out h
  exact ⟨h1, h2, fun f prev => rfl⟩

/-- Claim C6, witness at the concrete two-item chain with an echoing
submitter. -/
theorem c6_chain_order_witness :
    Automator.processChain sendC6 itemsC6 [] = Except.ok outC6 ∧
    (outC6.length = itemsC6.length ∧
      (∀ i, i < itemsC6.length →
        sendC6 (resolvePrompt (itemsC6.getD i (ChainItem.str []))
            (if i = 0 then [] else outC6.getD (i - 1) [])) = Except.ok (outC6.getD i [])) ∧
      (∀ f prev, resolvePrompt (ChainItem.fn f) prev = f prev)) :=
  ⟨rfl, c6_chain_order sendC6 itemsC6 outC6 rfl⟩

/-- Claim C7: when the polling loop first sees the OTP field at
iteration n (earlier iterations saw neither marker) and no supplier was
configured, login fails with the OTP-unavailable error having slept
exactly n times, never reaching the final thirty-second wait. -/
theorem c7_otp_no_callback (e : LoginEnv) (c : LoginCreds) (n : Nat)
    (hgoto : e.gotoOk = true) (halready : e.alreadyLoggedIn = false)
    (hland : e.landingClickOk = true)
    (hem : truthy c.email = true) (hpw : truthy c.password = true)
    (hmeth : (c.method == "google".data) = false) (hsteps : e.emailStepsOk = true)
    (hn : n < 30)
    (hbefore : ∀ j, j < n → e.profileVisible j = false ∧ e.otpVisible j = false)
    (hp : e.profileVisible n = false) (ho : e.otpVisible n = true) :
    (ChatGPTProvider.login e c none).1 = Except.error Err.otpUnavailable ∧
    (ChatGPTProvider.login e c none).2.count Event.tick = n ∧
    (ChatGPTProvider.login e c none).2.count Event.finalWait = 0 := by
  have hloop := awaitLoop_first_otp e n 0 30 hn
    (fun j hj => by simpa using hbefore j hj) (by simpa using hp) (by simpa using ho)
  have htb : ChatGPTProvider.loginTry e c none =
      (Except.error Err.otpUnavailable,
        [Event.fill "email_input", Event.click "email_continue_btn",
          Event.fill "password_input", Event.click "password_continue_btn"]
          ++ List.replicate n Event.tick) := by
    rw [ChatGPTProvider.loginTry]
    simp [ChatGPTProvider.credEntry, hmeth, hsteps, hloop]
  rw [ChatGPTProvider.login]
  by_cases hu : e.upsellVisible <;> by_cases ht : e.tempChatVisible <;>
    simp [hgoto, halready, hland, hem, hpw, htb, ChatGPTProvider.handleDialogs, hu, ht,
      List.count_append, List.count_cons, List.count_replicate]

/-- Claim C7, witness: the OTP field appears at iteration two, login
fails at once with two sleeps and no final wait. -/
theorem c7_witness :
    (ChatGPTProvider.login loginEnvC7 credsOk none).1 = Except.error Err.otpUnavailable ∧
    (ChatGPTProvider.login loginEnvC7 credsOk none).2.count Event.tick = 2 ∧
    (ChatGPTProvider.login loginEnvC7 credsOk none).2.count Event.finalWait = 0 :=
  c7_otp_no_callback loginEnvC7 credsOk 2 rfl rfl rfl (by decide) (by decide) (by decide) rfl
    (by decide) (by decide) rfl (by decide)

/-- Claim C8, counterexample: calling isAuthenticated before any page
was started throws, contradicting "always returns a boolean and never
throws". -/
theorem c8_counterexample :
    (BrowserManager.isAuthenticated false true true).1 = Except.error Err.browserNotStarted := rfl

/-- Claim C8, amended: once a page has been started, isAuthenticated
never throws: it returns true exactly when navigation succeeds and the
marker appears within the bounded wait, and false otherwise, including
on navigation failure. -/
theorem c8_amended (navOk markerVisible : Bool) :
    (BrowserManager.isAuthenticated true navOk markerVisible).1
      = Except.ok (navOk && markerVisible) := by
  cases navOk <;> cases markerVisible <;> rfl

/-- Claim C9: close never throws from any resource state, including when
init never ran or failed partway, a second close is a no-op fixed point,
and close releases the context handle whenever one exists. -/
theorem c9_close_safe :
    ∀ a : AState, ∃ b : AState,
      Automator.close a = Except.ok b ∧ Automator.close b = Except.ok b ∧
      (a.bmExists = true → a.ctxExists = true → b.ctxOpen = false) := by
  intro a
  by_cases h : a.bmExists = true
  · refine ⟨BrowserManager.stopState a, ?_, ?_, ?_⟩
    · simp [Automator.close, h]
    · simp [Automator.close, stopState_bmExists, h, stopState_idem]
    · intro _ hc
      exact stopState_ctxOpen a hc
  · refine ⟨a, ?_, ?_, ?_⟩
    · simp [Automator.close, h]
    · simp [Automator.close, h]
    · intro hb
      exact absurd hb h

/-- Claim C10: login never returns false: any run that does not throw
returns true, so an unauthenticated outcome is always an exception. -/
theorem c10_login_never_false (e : LoginEnv) (c : LoginCreds) (supplier : Option Str) :
    (ChatGPTProvider.login e c supplier).1 ≠ Except.ok false := by
  intro h
  rw [ChatGPTProvider.login] at h
  by_cases hg : e.gotoOk
  · by_cases ha : e.alreadyLoggedIn
    · simp [hg, ha] at h
    · by_cases hl : e.landingClickOk
      · by_cases hc : truthy c.email && truthy c.password
        · rcases htb : (ChatGPTProvider.loginTry e c supplier).1 with err | b
          · simp [hg, ha, hl, hc, htb] at h
          · simp [hg, ha, hl, hc, htb] at h
            exact loginTry_ne_ok_false e c supplier (htb.trans (by rw [h]))
        · simp [hg, ha, hl, hc] at h
      · simp [hg, ha, hl] at h
  · simp [hg] at h

end LLMSession
